import Mathlib

/-!
Verification of the routing-topology evaluation harness
(`experiment.py`, `centralized_routing.py`, `distributed_routing.py`).

Python strings are modelled as `List Char`; Python floats that only
undergo sums, divisions and comparisons are modelled as `ℚ`.
-/

/-- Python whitespace test, as used by `str.strip()` and the regex class
`\s` (restricted to the ASCII whitespace characters, the only ones that
occur in this program's marker protocol). -/
def pyIsSpace (c : Char) : Bool :=
  c = ' ' || c = '\t' || c = '\n' || c = '\r' || c = '\x0b' || c = '\x0c'

/-- Python `s.strip()`: remove leading and trailing whitespace. -/
def stripChars (s : List Char) : List Char :=
  ((s.dropWhile pyIsSpace).reverse.dropWhile pyIsSpace).reverse

/-- Python `needle in haystack` (substring containment test). -/
def strContains (needle : List Char) : List Char → Bool
  | [] => needle.isEmpty
  | c :: rest => needle.isPrefixOf (c :: rest) || strContains needle rest

/-- Python `s.lower()` (ASCII case folding, matching the identifiers
this program compares). -/
def pyLower (s : List Char) : List Char := s.map Char.toLower

/-- `experiment.py` `is_correct_routing(routed_to, expected_domain)`:
`return f"{expected_domain}_" in routed_to or routed_to.startswith(expected_domain)`. -/
def is_correct_routing (routed_to expected_domain : List Char) : Bool :=
  strContains (expected_domain ++ ['_']) routed_to
    || expected_domain.isPrefixOf routed_to

/-- The correctness rule as the spec words it (for comparison with
`is_correct_routing`): `routed_to` starts with `expected_domain`
followed immediately by an underscore, or equals it exactly. -/
def spec_is_correct (routed_to expected_domain : List Char) : Bool :=
  (expected_domain ++ ['_']).isPrefixOf routed_to || routed_to == expected_domain

/-- The literal text `[ROUTED_TO:` of the first marker alternative. -/
def ROUTED_MARK : List Char := "[ROUTED_TO:".toList

/-- The literal text `[HANDLED_BY:` of the second marker alternative. -/
def HANDLED_MARK : List Char := "[HANDLED_BY:".toList

/-- Captured group of `\s*([^\]]+)\]` applied to the segment `s` standing
between the marker's colon and the next `]`: the regex engine drops the
maximal whitespace run at the front, except that when `s` is whitespace
only, greedy backtracking leaves the final character in the group. -/
def markerGroup (s : List Char) : List Char :=
  let r := s.dropWhile pyIsSpace
  if r.isEmpty then s.drop (s.length - 1) else r

/-- Matching `\s*([^\]]+)\]` at the start of `rest` (the text after a
marker's colon): succeeds iff `rest` has a `]` preceded by at least one
character; yields the captured group and the number of consumed
characters. -/
def matchMarkerBody (rest : List Char) : Option (List Char × Nat) :=
  let s := rest.takeWhile (fun c => c ≠ ']')
  if s.length < rest.length && !s.isEmpty then
    some (markerGroup s, s.length + 1)
  else
    none

/-- Matching the regex
`\[ROUTED_TO:\s*([^\]]+)\]|\[HANDLED_BY:\s*([^\]]+)\]` at the start
of `l`, returning the captured group and the match length. -/
def matchMarkerAt (l : List Char) : Option (List Char × Nat) :=
  if ROUTED_MARK.isPrefixOf l then
    (matchMarkerBody (l.drop ROUTED_MARK.length)).map
      (fun p => (p.1, ROUTED_MARK.length + p.2))
  else if HANDLED_MARK.isPrefixOf l then
    (matchMarkerBody (l.drop HANDLED_MARK.length)).map
      (fun p => (p.1, HANDLED_MARK.length + p.2))
  else
    none

/-- `re.findall` scan: non-overlapping matches left to right, advancing
one character where no match starts.  The fuel argument (instantiated
with the text length, an upper bound on the number of scan steps) keeps
the recursion structural. -/
def findMarkersAux : Nat → List Char → List (List Char)
  | 0, _ => []
  | _ + 1, [] => []
  | fuel + 1, c :: rest =>
    match matchMarkerAt (c :: rest) with
    | some (g, k) => g :: findMarkersAux fuel (List.drop (k - 1) rest)
    | none => findMarkersAux fuel rest

/-- All marker captures of the response text, in text order
(`re.findall(pattern, response_text)` followed by selecting the matched
alternative's group, as the extraction loop does). -/
def findMarkers (text : List Char) : List (List Char) :=
  findMarkersAux text.length text

/-- The marker-extraction loop of `run_query_async`: starting from
`"unknown"`, each truthy capture overwrites `routed_to` with its
stripped text. -/
def foldMarkers (ms : List (List Char)) (init : List Char) : List Char :=
  ms.foldl (fun acc g => if g.isEmpty then acc else stripChars g) init

/-- `routed_to` after the marker-extraction loop of `run_query_async`. -/
def parseRouted (text : List Char) : List Char :=
  foldMarkers (findMarkers text) "unknown".toList

/-- Trace-fallback filter of `run_query_async`: keep an author whose
lowercased name contains neither `"coordinator"` nor `"category"`. -/
def keepAgent (a : List Char) : Bool :=
  !strContains ("coordinator".toList) (pyLower a)
    && !strContains ("category".toList) (pyLower a)

/-- Full `routed_to` resolution of `run_query_async`: marker extraction,
then — when the result is still `"unknown"` and the routing path is
nonempty — the trace fallback (last non-coordinator author, else the
raw last author). -/
def run_query_routed_to (text : List Char) (path : List (List Char)) : List Char :=
  let routed := parseRouted text
  if routed == "unknown".toList && !path.isEmpty then
    let domain_agents := path.filter keepAgent
    match domain_agents.getLast? with
    | some a => a
    | none =>
      match path.getLast? with
      | some a => a
      | none => routed
  else
    routed

/-- The per-query record returned by `run_query_async` (the `mode`
string field is omitted; `latency` is the measured wall-clock value,
passed in here since timing is outside the embedding). -/
structure RoutingResult where
  query : List Char
  response : List Char
  routed_to : List Char
  routing_path : List (List Char)
  hop_count : Nat
  latency : ℚ
deriving DecidableEq

/-- The dictionary built at the end of `run_query_async`:
`response` is `response_text[:500]`, `routed_to` is resolved from the
full text, `hop_count` is `len(set(routing_path))`. -/
def run_query_result (query text : List Char) (path : List (List Char))
    (latency : ℚ) : RoutingResult :=
  { query := query
    response := text.take 500
    routed_to := run_query_routed_to text path
    routing_path := path
    hop_count := path.dedup.length
    latency := latency }

/-- A result row as consumed by `calculate_run_metrics`: the fields of
the `run_query_async` dictionary it reads, plus the `expected` domain
attached by the run drivers. -/
structure ScoredResult where
  routed_to : List Char
  expected : List Char
  latency : ℚ
  hop_count : Nat
deriving DecidableEq

/-- The per-run metrics dictionary of `calculate_run_metrics`. -/
structure RunMetrics where
  accuracy : ℚ
  avg_latency : ℚ
  avg_hops : ℚ
  correct : Nat
  total : Nat
deriving DecidableEq

/-- `experiment.py` `calculate_run_metrics(results)`: counts correct
routings, and computes accuracy / mean latency / mean hop count,
each guarded to 0 on an empty batch. -/
def calculate_run_metrics (results : List ScoredResult) : RunMetrics :=
  let correct := (results.filter
    (fun r => is_correct_routing r.routed_to r.expected)).length
  let total := results.length
  { accuracy := if total > 0 then (correct : ℚ) / total * 100 else 0
    avg_latency := if total > 0 then (results.map (·.latency)).sum / total else 0
    avg_hops := if total > 0 then ((results.map (·.hop_count)).sum : ℚ) / total else 0
    correct := correct
    total := total }

/-- Winner labels printed by the comparison code. -/
inductive Winner
  | Centralized
  | Distributed
  | Direct
  | Tie
deriving DecidableEq

/-- `statistics.mean` over a per-run metric list. -/
def pymean (xs : List ℚ) : ℚ := xs.sum / xs.length

/-- Accuracy winner in `run_comparison` (two topologies, single run):
`"Tie" if acc_diff < 5 else ("Centralized" if cen_acc > dist_acc else "Distributed")`
with `acc_diff = abs(cen_acc - dist_acc)`. -/
def run_comparison_acc_winner (cen_acc dist_acc : ℚ) : Winner :=
  if |cen_acc - dist_acc| < 5 then Winner.Tie
  else if cen_acc > dist_acc then Winner.Centralized
  else Winner.Distributed

/-- Accuracy winner in the three-topology branch of
`print_multi_run_table`:
`best_acc = max(avg_cen_acc, avg_dist_acc, avg_dir_acc)` then
`"Centralized" if best_acc == avg_cen_acc else ("Direct" if best_acc == avg_dir_acc else "Distributed")` —
there is no tie case. -/
def multi_run_acc_winner3 (cen_accs dist_accs dir_accs : List ℚ) : Winner :=
  let avg_cen_acc := pymean cen_accs
  let avg_dist_acc := pymean dist_accs
  let avg_dir_acc := pymean dir_accs
  let best_acc := max avg_cen_acc (max avg_dist_acc avg_dir_acc)
  if best_acc = avg_cen_acc then Winner.Centralized
  else if best_acc = avg_dir_acc then Winner.Direct
  else Winner.Distributed

/-- Accuracy winner in the two-topology branch of
`print_multi_run_table`:
`"Centralized" if avg_cen_acc > avg_dist_acc else ("Distributed" if avg_dist_acc > avg_cen_acc else "Tie")` —
a tie only on exact equality of means. -/
def multi_run_acc_winner2 (cen_accs dist_accs : List ℚ) : Winner :=
  if pymean cen_accs > pymean dist_accs then Winner.Centralized
  else if pymean dist_accs > pymean cen_accs then Winner.Distributed
  else Winner.Tie

/-- A `DOMAINS` registry entry, restricted to the fields the topology
builder's structure depends on (`description`, `keywords` and
`sample_queries` only feed the rendered instruction strings, which are
not modelled). -/
structure DomainRecord where
  name : List Char
  sub_agents : List (List Char)
deriving DecidableEq

/-- Role of a node in the delegation tree: a node whose instruction
routes onward is a Dispatcher, a node whose instruction answers
directly is a Leaf. -/
inductive NodeRole
  | Dispatcher
  | Leaf
deriving DecidableEq

/-- A terminal sub-agent node created by `create_distributed_system`. -/
structure LeafNode where
  name : List Char
deriving DecidableEq

/-- A domain-level node created by `create_distributed_system`.  Its
`role` records which instruction branch the builder took: with
sub-agents the instruction says `Route to the most appropriate
sub-agent and delegate immediately` (Dispatcher), without it says
`Handle this request directly` (Leaf behaviour). -/
structure DomainNode where
  name : List Char
  children : List LeafNode
  role : NodeRole
deriving DecidableEq

/-- The root node created by `create_distributed_system`. -/
structure RootNode where
  name : List Char
  children : List DomainNode
deriving DecidableEq

/-- Sub-agent construction in `create_distributed_system`:
`name=f"{domain['name']}_{sub_name}"`. -/
def mkSubAgent (domName subName : List Char) : LeafNode :=
  { name := domName ++ ('_' :: subName) }

/-- Domain-node construction in `create_distributed_system`: one
sub-agent per `sub_agents` entry, domain node named
`f"{domain['name']}_domain"`, instruction branch chosen by
`if sub_agents:`. -/
def mkDomainNode (d : DomainRecord) : DomainNode :=
  let subs := d.sub_agents.map (mkSubAgent d.name)
  { name := d.name ++ "_domain".toList
    children := subs
    role := if subs.isEmpty then NodeRole.Leaf else NodeRole.Dispatcher }

/-- `create_distributed_system` (`distributed_routing.py` /
`experiment.py`): the two-level topology — a root coordinator with one
domain node per registry entry. -/
def create_distributed_system (registry : List DomainRecord) : RootNode :=
  { name := "distributed_coordinator".toList
    children := registry.map mkDomainNode }

/-- The `finance` record of the spec's two-domain example registry:
leaf handlers `banking` and `expenses`. -/
def financeRecord : DomainRecord :=
  { name := "finance".toList
    sub_agents := ["banking".toList, "expenses".toList] }

/-- The `hr` record of the spec's two-domain example registry: no leaf
handlers. -/
def hrRecord : DomainRecord :=
  { name := "hr".toList
    sub_agents := [] }

/-- The two-domain example registry of the spec's scenario. -/
def exampleRegistry : List DomainRecord := [financeRecord, hrRecord]

/-!
## General lemmas
-/

/-- `strContains` agrees with list-infix containment: the Python
substring test `needle in haystack` holds exactly when `needle` is a
contiguous segment of `haystack`. -/
theorem strContains_iff (needle : List Char) :
    ∀ l : List Char, strContains needle l = true ↔ needle <:+: l := by
  intro l
  induction l with
  | nil =>
    simp [strContains, List.isEmpty_iff, List.infix_nil]
  | cons c rest ih =>
    simp [strContains, Bool.or_eq_true, List.isPrefixOf_iff_prefix, ih,
      List.infix_cons_iff]

/-- A regex capture group derived from a nonempty bracket segment is
nonempty. -/
theorem markerGroup_ne_nil {s : List Char} (hs : s ≠ []) :
    markerGroup s ≠ [] := by
  simp only [markerGroup]
  split
  · intro hcon
    have hlen : (s.drop (s.length - 1)).length = 0 := by rw [hcon]; rfl
    rw [List.length_drop] at hlen
    have hpos : 0 < s.length := List.length_pos.mpr hs
    omega
  · rename_i h
    simpa [List.isEmpty_iff] using h

/-- A successful marker-body match yields a nonempty capture group. -/
theorem matchMarkerBody_ne_nil {rest g : List Char} {k : Nat}
    (h : matchMarkerBody rest = some (g, k)) : g ≠ [] := by
  simp only [matchMarkerBody] at h
  split at h
  · rename_i hcond
    have hg : markerGroup (rest.takeWhile (fun c => c ≠ ']')) = g := by
      injection h with h'
      exact congrArg Prod.fst h'
    have hs : rest.takeWhile (fun c => c ≠ ']') ≠ [] := by
      rcases Bool.and_eq_true .. ▸ hcond with ⟨_, h2⟩
      simpa [List.isEmpty_iff] using h2
    exact hg ▸ markerGroup_ne_nil hs
  · exact absurd h (by simp)

/-- A successful marker match yields a nonempty capture group. -/
theorem matchMarkerAt_ne_nil {l g : List Char} {k : Nat}
    (h : matchMarkerAt l = some (g, k)) : g ≠ [] := by
  simp only [matchMarkerAt] at h
  split at h
  · rcases Option.map_eq_some'.mp h with ⟨⟨g0, k0⟩, hb, he⟩
    have : g0 = g := congrArg Prod.fst he
    exact this ▸ matchMarkerBody_ne_nil hb
  · split at h
    · rcases Option.map_eq_some'.mp h with ⟨⟨g0, k0⟩, hb, he⟩
      have : g0 = g := congrArg Prod.fst he
      exact this ▸ matchMarkerBody_ne_nil hb
    · exact absurd h (by simp)

/-- Every capture produced by the scan is nonempty (Python truthiness:
each group overwrites `routed_to`). -/
theorem findMarkersAux_ne_nil :
    ∀ (fuel : Nat) (l : List Char), ∀ g ∈ findMarkersAux fuel l, g ≠ [] := by
  intro fuel
  induction fuel with
  | zero =>
    intro l g hg
    simp [findMarkersAux] at hg
  | succ n ih =>
    intro l g hg
    match l with
    | [] => simp [findMarkersAux] at hg
    | c :: rest =>
      rw [findMarkersAux] at hg
      cases hm : matchMarkerAt (c :: rest) with
      | none =>
        rw [hm] at hg
        exact ih _ _ hg
      | some p =>
        rcases p with ⟨g0, k⟩
        rw [hm] at hg
        rcases List.mem_cons.mp hg with hg | hg
        · exact hg ▸ matchMarkerAt_ne_nil hm
        · exact ih _ _ hg

/-- The marker-extraction loop over a list of nonempty captures returns
the stripped last capture. -/
theorem foldMarkers_getLast :
    ∀ (ms : List (List Char)) (init g : List Char),
      ms.getLast? = some g → (∀ x ∈ ms, x ≠ []) →
      foldMarkers ms init = stripChars g := by
  intro ms
  induction ms with
  | nil =>
    intro init g h
    simp at h
  | cons m rest ih =>
    intro init g hlast hne
    cases rest with
    | nil =>
      simp at hlast
      subst hlast
      have hm : ¬ m.isEmpty = true := by
        simpa [List.isEmpty_iff] using hne m (by simp)
      have hstep : foldMarkers [m] init = if m.isEmpty then init else stripChars m := rfl
      rw [hstep, if_neg hm]
    | cons m2 t =>
      have hlast' : (m2 :: t).getLast? = some g := by
        rwa [List.getLast?_cons_cons] at hlast
      have hstep : foldMarkers (m :: m2 :: t) init
          = foldMarkers (m2 :: t) (if m.isEmpty then init else stripChars m) := rfl
      rw [hstep]
      exact ih _ g hlast' (fun x hx => hne x (by simp [hx]))

/-- With no marker in the text, the extraction loop leaves the
`"unknown"` sentinel in place. -/
theorem parseRouted_of_no_marker {text : List Char}
    (h : findMarkers text = []) : parseRouted text = "unknown".toList := by
  simp [parseRouted, h, foldMarkers]

/-- The parsed `routed_to` is either the sentinel or the stripped text
of some marker capture. -/
theorem parseRouted_cases (text : List Char) :
    parseRouted text = "unknown".toList ∨
      ∃ g ∈ findMarkers text, parseRouted text = stripChars g := by
  cases h : (findMarkers text).getLast? with
  | none =>
    exact Or.inl (parseRouted_of_no_marker (List.getLast?_eq_none_iff.mp h))
  | some g =>
    refine Or.inr ⟨g, List.mem_of_mem_getLast? (by simp [h]), ?_⟩
    exact foldMarkers_getLast _ _ _ h (findMarkersAux_ne_nil _ _)

/-- The resolved `routed_to` of `run_query_async` is either the parsed
marker value or one of the trace authors. -/
theorem run_query_routed_to_cases (text : List Char) (path : List (List Char)) :
    run_query_routed_to text path = parseRouted text ∨
      run_query_routed_to text path ∈ path := by
  simp only [run_query_routed_to]
  split
  · cases hf : (path.filter keepAgent).getLast? with
    | some a =>
      exact Or.inr (List.mem_of_mem_filter
        (List.mem_of_mem_getLast? (Option.mem_def.mpr hf)))
    | none =>
      cases hp : path.getLast? with
      | some a =>
        exact Or.inr (List.mem_of_mem_getLast? (Option.mem_def.mpr hp))
      | none =>
        exact Or.inl rfl
  · exact Or.inl rfl

/-!
## Claim theorems
-/

/-- Claim C1 (counterexample): the routing score is not the
underscore-boundary-or-exact-match rule the claim states —
`is_correct_routing("financehandler", "finance")` returns `True`
because of the bare `startswith` check, while the claimed rule scores
it incorrect. -/
theorem c1_counterexample :
    is_correct_routing ("financehandler".toList) ("finance".toList) = true ∧
    spec_is_correct ("financehandler".toList) ("finance".toList) = false := by
  decide

/-- Claim C1 (amended): `is_correct_routing` returns true iff
`expected_domain` followed by an underscore occurs as a substring
anywhere in `routed_to`, or `expected_domain` is a prefix of
`routed_to`; in particular `finance_agent`/`finance` is scored correct,
but so is `financehandler`/`finance`. -/
theorem c1_amended :
    (∀ routed expected : List Char,
      is_correct_routing routed expected = true ↔
        ((expected ++ ['_']) <:+: routed ∨ expected <+: routed)) ∧
    is_correct_routing ("finance_agent".toList) ("finance".toList) = true ∧
    is_correct_routing ("financehandler".toList) ("finance".toList) = true := by
  refine ⟨?_, by decide, by decide⟩
  intro routed expected
  simp [is_correct_routing, Bool.or_eq_true, strContains_iff,
    List.isPrefixOf_iff_prefix]

/-- Claim C2 (counterexample): in the three-topology multi-run
aggregation the per-run accuracy lists `[80,85,90]`, `[81,84,89]` and
`[82,85,88]` have pairwise mean differences below 5 percentage points,
yet the winner declared is `Centralized`, not `Tie`. -/
theorem c2_counterexample :
    |pymean [(80:ℚ), 85, 90] - pymean [81, 84, 89]| < 5 ∧
    |pymean [(80:ℚ), 85, 90] - pymean [82, 85, 88]| < 5 ∧
    |pymean [(81:ℚ), 84, 89] - pymean [82, 85, 88]| < 5 ∧
    multi_run_acc_winner3 [80, 85, 90] [81, 84, 89] [82, 85, 88]
      = Winner.Centralized := by
  refine ⟨?_, ?_, ?_, ?_⟩
  · unfold pymean; rw [abs_lt]; constructor <;> norm_num
  · unfold pymean; rw [abs_lt]; constructor <;> norm_num
  · unfold pymean; rw [abs_lt]; constructor <;> norm_num
  · unfold multi_run_acc_winner3 pymean; norm_num [max_def]

/-- Claim C2 (amended): the under-5-percentage-point tie threshold
applies to the two-topology single-run comparison
(`run_comparison_acc_winner`); the multi-run table ties two topologies
only on exactly equal means, and with three topologies always declares
the maximum-mean topology winner — so the claimed 3-topology scenario
yields `Centralized`, not `Tie`. -/
theorem c2_amended :
    (∀ cen_acc dist_acc : ℚ, |cen_acc - dist_acc| < 5 →
      run_comparison_acc_winner cen_acc dist_acc = Winner.Tie) ∧
    (∀ cen_accs dist_accs : List ℚ, pymean cen_accs = pymean dist_accs →
      multi_run_acc_winner2 cen_accs dist_accs = Winner.Tie) ∧
    multi_run_acc_winner3 [80, 85, 90] [81, 84, 89] [82, 85, 88]
      = Winner.Centralized := by
  refine ⟨?_, ?_, ?_⟩
  · intro c d h
    unfold run_comparison_acc_winner
    rw [if_pos h]
  · intro cs ds h
    unfold multi_run_acc_winner2
    rw [if_neg (by rw [h]; exact lt_irrefl _), if_neg (by rw [h]; exact lt_irrefl _)]
  · unfold multi_run_acc_winner3 pymean; norm_num [max_def]

/-- Claim C2 witness: concrete instantiations of the amended tie
rules. -/
theorem c2_witness :
    run_comparison_acc_winner 85 (254/3) = Winner.Tie ∧
    multi_run_acc_winner2 [80] [80] = Winner.Tie :=
  ⟨c2_amended.1 85 (254/3) (by rw [abs_lt]; constructor <;> norm_num),
   c2_amended.2.1 [80] [80] rfl⟩

/-- Claim C3: when at least one `[ROUTED_TO: …]`/`[HANDLED_BY: …]`
marker matches, the parsed identifier is the stripped capture of the
last match in text order; both whitespace placements parse to
`finance_agent`, and a later marker overrides an earlier one. -/
theorem c3 :
    (∀ (text g : List Char), (findMarkers text).getLast? = some g →
      parseRouted text = stripChars g) ∧
    parseRouted ("[ROUTED_TO: finance_agent]".toList) = "finance_agent".toList ∧
    parseRouted ("[ROUTED_TO:finance_agent ]".toList) = "finance_agent".toList ∧
    parseRouted ("x [ROUTED_TO: hr] y [ROUTED_TO: finance] z".toList)
      = "finance".toList := by
  refine ⟨?_, by decide, by decide, by decide⟩
  intro text g h
  exact foldMarkers_getLast _ _ _ h (findMarkersAux_ne_nil _ _)

/-- Claim C3 witness: the last-match rule applied to a concrete
two-marker text. -/
theorem c3_witness :
    parseRouted ("[ROUTED_TO: hr] then [ROUTED_TO: finance]".toList)
      = stripChars ("finance".toList) :=
  c3.1 _ _ (by decide)

/-- Claim C4: with no marker match the resolution falls back to the
trace — the last author surviving the coordinator/category filter, else
the raw last author; an empty trace resolves to `"unknown"` with
`hop_count` 0; and `["central_coordinator", "finance_agent"]` resolves
to `finance_agent`. -/
theorem c4 (text : List Char) (path : List (List Char))
    (hm : findMarkers text = []) :
    (path = [] → run_query_routed_to text path = "unknown".toList) ∧
    (∀ a, (path.filter keepAgent).getLast? = some a →
      run_query_routed_to text path = a) ∧
    (path.filter keepAgent = [] → ∀ b, path.getLast? = some b →
      run_query_routed_to text path = b) ∧
    (run_query_result [] text [] 0).routed_to = "unknown".toList ∧
    (run_query_result [] text [] 0).hop_count = 0 ∧
    run_query_routed_to ("no markers here".toList)
      ["central_coordinator".toList, "finance_agent".toList]
      = "finance_agent".toList := by
  have hp := parseRouted_of_no_marker hm
  refine ⟨?_, ?_, ?_, ?_, rfl, by decide⟩
  · intro h
    subst h
    simp [run_query_routed_to, hp]
  · intro a ha
    have hpath : ¬ path.isEmpty = true := by
      intro h
      rw [List.isEmpty_iff.mp h] at ha
      simp at ha
    simp only [run_query_routed_to, hp]
    rw [if_pos (by simp [hpath]), ha]
  · intro hfil b hb
    have hpath : ¬ path.isEmpty = true := by
      intro h
      rw [List.isEmpty_iff.mp h] at hb
      simp at hb
    simp only [run_query_routed_to, hp]
    rw [if_pos (by simp [hpath]), hfil, hb]
    rfl
  · simp [run_query_result, run_query_routed_to, hp]

/-- Claim C4 witness: fallback resolution on a concrete marker-free
text and coordinator-headed trace. -/
theorem c4_witness :
    run_query_routed_to ("plain response text".toList)
      ["central_coordinator".toList, "finance_agent".toList]
      = "finance_agent".toList :=
  (c4 ("plain response text".toList) _ (by decide)).2.1 _ (by decide)

/-- Claim C5 (counterexample): a marker whose bracketed content is a
single space — `[ROUTED_TO: ]` — matches the regex, its capture strips
to the empty string, and the pipeline returns an empty `routed_to`,
which is neither `"unknown"` nor a nonempty identifier. -/
theorem c5_counterexample :
    (run_query_result [] ("[ROUTED_TO: ]".toList) [] 0).routed_to = [] := by
  decide

/-- Claim C5 (amended): `routed_to` is the sentinel, a stripped marker
capture, or a trace author; it is nonempty whenever every marker
capture strips to a nonempty identifier and every trace author is
nonempty — but a whitespace-only marker content makes it the empty
string. -/
theorem c5_amended (text : List Char) (path : List (List Char))
    (hmk : ∀ g ∈ findMarkers text, stripChars g ≠ [])
    (hpath : ∀ p ∈ path, p ≠ []) :
    run_query_routed_to text path ≠ [] := by
  rcases run_query_routed_to_cases text path with h | h
  · rw [h]
    rcases parseRouted_cases text with h2 | ⟨g, hg, h2⟩
    · rw [h2]; decide
    · rw [h2]; exact hmk g hg
  · exact hpath _ h

/-- Claim C5 witness: nonemptiness of `routed_to` on a concrete text
and trace satisfying the amended side conditions. -/
theorem c5_witness :
    run_query_routed_to ("[ROUTED_TO: x]".toList) ["a".toList] ≠ [] :=
  c5_amended _ _ (by decide) (by decide)

/-- Claim C6: the executor's `hop_count` is the number of distinct
identifiers in the routing path (`len(set(routing_path))`), and is at
most the path length. -/
theorem c6 (q text : List Char) (path : List (List Char)) (lat : ℚ) :
    (run_query_result q text path lat).hop_count = path.toFinset.card ∧
    (run_query_result q text path lat).hop_count ≤ path.length := by
  constructor
  · simp [run_query_result, List.card_toFinset]
  · exact (List.dedup_sublist path).length_le

/-- Claim C7: `calculate_run_metrics` reports `total` equal to the
batch length, accuracy `100 * correct / total` on a nonempty batch, and
all-zero metrics (no division error) on the empty batch. -/
theorem c7 (results : List ScoredResult) :
    (calculate_run_metrics results).total = results.length ∧
    (0 < results.length →
      (calculate_run_metrics results).accuracy =
        100 * ((calculate_run_metrics results).correct : ℚ)
          / ((calculate_run_metrics results).total : ℚ)) ∧
    calculate_run_metrics [] = ⟨0, 0, 0, 0, 0⟩ := by
  refine ⟨rfl, ?_, rfl⟩
  intro h
  simp only [calculate_run_metrics]
  rw [if_pos h]
  ring

/-- Claim C7 witness: the accuracy formula on a concrete one-element
batch. -/
theorem c7_witness :
    (calculate_run_metrics
        [⟨"finance_agent".toList, "finance".toList, 1, 2⟩]).accuracy =
      100 * ((calculate_run_metrics
        [⟨"finance_agent".toList, "finance".toList, 1, 2⟩]).correct : ℚ)
          / ((calculate_run_metrics
        [⟨"finance_agent".toList, "finance".toList, 1, 2⟩]).total : ℚ) :=
  (c7 _).2.1 (by decide)

/-- Claim C8: the two-level topology has one domain node per registry
record; a domain node's children are one leaf per `sub_agents` entry,
named `{domain}_{leaf}`, and the node is a Dispatcher exactly when the
entry list is nonempty (otherwise it behaves as a Leaf); the
finance/hr example registry yields the claimed shape. -/
theorem c8 (registry : List DomainRecord) (d : DomainRecord)
    (hd : d ∈ registry) :
    (create_distributed_system registry).children.length = registry.length ∧
    mkDomainNode d ∈ (create_distributed_system registry).children ∧
    (mkDomainNode d).children.map LeafNode.name
      = d.sub_agents.map (fun s => d.name ++ ('_' :: s)) ∧
    ((mkDomainNode d).role = NodeRole.Leaf ↔ d.sub_agents = []) ∧
    (create_distributed_system exampleRegistry).children.length = 2 ∧
    (create_distributed_system exampleRegistry).children.map
        (fun n => n.children.map LeafNode.name)
      = [["finance_banking".toList, "finance_expenses".toList], []] ∧
    (create_distributed_system exampleRegistry).children.map DomainNode.role
      = [NodeRole.Dispatcher, NodeRole.Leaf] := by
  refine ⟨by simp [create_distributed_system], List.mem_map_of_mem _ hd,
    ?_, ?_, by decide, by decide, by decide⟩
  · simp [mkDomainNode, mkSubAgent, List.map_map, Function.comp]
  · cases h : d.sub_agents with
    | nil => simp [mkDomainNode, h]
    | cons a t => simp [mkDomainNode, h]

/-- Claim C8 witness: the finance domain node of the example registry
is a child of the built root. -/
theorem c8_witness :
    mkDomainNode financeRecord
      ∈ (create_distributed_system exampleRegistry).children :=
  (c8 exampleRegistry financeRecord (by decide)).2.1

/-- Claim C9: with an empty `expected_domain`, `is_correct_routing`
accepts every `routed_to` (the `startswith("")` disjunct is always
true), including the sentinel `"unknown"`. -/
theorem c9 :
    (∀ routed : List Char, is_correct_routing routed [] = true) ∧
    is_correct_routing ("unknown".toList) [] = true := by
  constructor
  · intro routed
    have h : List.isPrefixOf ([] : List Char) routed = true := by
      cases routed <;> rfl
    simp [is_correct_routing, h]
  · decide

set_option maxRecDepth 100000 in
/-- Claim C10: the stored `response` is the first 500 characters of the
concatenated output while `routed_to` is parsed from the full text — on
a text whose only marker starts after character 500, the result routes
to `finance` even though the stored response contains no marker and the
truncated text alone would have parsed to `"unknown"`. -/
theorem c10 :
    (∀ (q text : List Char) (path : List (List Char)) (lat : ℚ),
      (run_query_result q text path lat).response = text.take 500 ∧
      (run_query_result q text path lat).routed_to
        = run_query_routed_to text path) ∧
    (run_query_result []
        (List.replicate 500 'a' ++ "[ROUTED_TO: finance]".toList) [] 0).routed_to
      = "finance".toList ∧
    strContains ROUTED_MARK
      ((run_query_result []
        (List.replicate 500 'a' ++ "[ROUTED_TO: finance]".toList) [] 0).response)
      = false ∧
    run_query_routed_to
      ((List.replicate 500 'a' ++ "[ROUTED_TO: finance]".toList).take 500) []
      = "unknown".toList := by
  refine ⟨fun q text path lat => ⟨rfl, rfl⟩, by decide, by decide, by decide⟩
